import Mathlib

/-! # Ar-Risalah newsletter backend: a model of `src/server.js`

The service has one table (`subscribers`), one write path
(`POST /api/newsletter/subscribe`), one read path (`GET /api/admin/subscribers`),
a liveness check and a rate limiter in front of `/api/newsletter`.

Conventions of the model.

* The `subscribers` table is the list of its rows in rowid order.
* Everything the environment decides is an explicit argument: the value of
  `CURRENT_TIMESTAMP` at an insert (`now`, in clock seconds; the text form
  `YYYY-MM-DD HH:MM:SS` compares exactly like the second count), the arrival time
  of a request at the limiter (`time`, in milliseconds), and whether the database
  reports an error for a statement (`fault`).
* A request carries its body as the JSON body parser of line 14 sees it (`Payload`);
  the parser stands in front of the limiter and of every route.
* The syntax check that `validator.isEmail` performs on a string is a parameter
  `syn : String → Bool`; the package is a dependency, not part of the repository.
-/

namespace Newsletter

/-! ## JavaScript values and HTTP responses -/

/-- A JavaScript value as `express.json()` can put it in `req.body`, plus `undefined`
for a property that is absent. Numbers are restricted to integers: the handler only
tests a number for truthiness. -/
inductive JsValue where
  | undefined
  | null
  | bool (b : Bool)
  | num (n : Int)
  | str (s : String)
  | arr (items : List JsValue)
  | obj (fields : List (String × JsValue))

/-- An exception raised while a handler runs. -/
inductive JsError where
  | typeError
deriving DecidableEq, Repr

/-- JavaScript truthiness, as tested by `!email` on line 56. -/
def JsValue.truthy : JsValue → Bool
  | .undefined => false
  | .null => false
  | .bool b => b
  | .num n => n != 0
  | .str s => s != ""
  | .arr _ => true
  | .obj _ => true

/-- The value of the last field named `key`; `JSON.parse` keeps the last duplicate. -/
def lookupField (key : String) : List (String × JsValue) → JsValue
  | [] => .undefined
  | (k, v) :: rest =>
    match lookupField key rest with
    | .undefined => if k = key then v else .undefined
    | found => found

/-- Destructuring `const { key } = v` (line 51): it throws on `undefined` and `null`,
reads the field of an object, and finds nothing on any other value. -/
def JsValue.prop (v : JsValue) (key : String) : Except JsError JsValue :=
  match v with
  | .undefined => .error .typeError
  | .null => .error .typeError
  | .obj fields => .ok (lookupField key fields)
  | _ => .ok .undefined

/-- A response body. -/
inductive Body where
  /-- The object `{ success, message }` of the subscribe route and of the limiter. -/
  | result (success : Bool) (message : String)
  /-- The object `{ status, message, timestamp }` of the health route. -/
  | health (status : String) (message : String) (timestamp : Nat)
  /-- The array of `{ email, subscription_date }` objects of the listing route. -/
  | rows (entries : List (String × Nat))
  /-- The object `{ error }` of the listing route. -/
  | error (error : String)
  /-- The page Express sends when a handler throws. -/
  | errorPage
deriving DecidableEq, Repr

/-- An HTTP response: status code and body. -/
structure Response where
  status : Nat
  body : Body
deriving DecidableEq, Repr

/-! ## The `subscribers` table (lines 34-39) -/

/-- One row of `subscribers`. -/
structure Subscriber where
  /-- Column `id INTEGER PRIMARY KEY AUTOINCREMENT`. -/
  id : Nat
  /-- Column `email TEXT UNIQUE NOT NULL`. -/
  email : String
  /-- Column `subscription_date DATETIME DEFAULT CURRENT_TIMESTAMP`. -/
  subscription_date : Nat
  /-- Column `is_active BOOLEAN DEFAULT 1`. -/
  is_active : Bool
deriving DecidableEq, Repr

/-- The table: its rows in rowid order. -/
abbrev Table := List Subscriber

/-- An error object handed to a sqlite3 callback. -/
structure DbError where
  errno : Nat
  message : String
deriving DecidableEq, Repr

/-- The rowid an insert receives. `AUTOINCREMENT` promises a rowid larger than every
rowid the table holds. The model takes the next one; SQLite may pass over some values
(an insert that is ignored uses one up), so only the bound `lt_nextId` is meant, not
the value. -/
def nextId (t : Table) : Nat :=
  (t.map (fun r => r.id)).foldr max 0 + 1

/-- The statement `INSERT OR IGNORE INTO subscribers (email) VALUES (?)` (line 71):
if a row already holds the email (compared byte for byte, the column has no
collation) the `UNIQUE` conflict is ignored and nothing changes; otherwise one row is
appended with the defaults of the other columns. Returns the table and the number of
rows changed. -/
def insertOrIgnore (t : Table) (email : String) (now : Nat) : Table × Nat :=
  if t.any (fun r => r.email == email) then (t, 0)
  else (t ++ [Subscriber.mk (nextId t) email now true], 1)

/-- What the callback of `db.run` receives: `err`, or `this.changes`. -/
inductive RunResult where
  | failed (err : DbError)
  | done (changes : Nat)
deriving DecidableEq, Repr

/-- The call `db.run(sql, [email], callback)` (line 73): a failing statement leaves the
table as it was and reports the error. -/
def dbRun (fault : Option DbError) (t : Table) (email : String) (now : Nat) :
    Table × RunResult :=
  match fault with
  | some err => (t, .failed err)
  | none => ((insertOrIgnore t email now).1, .done (insertOrIgnore t email now).2)

/-- The query of line 109: `SELECT email, subscription_date FROM subscribers WHERE
is_active = 1 ORDER BY subscription_date DESC`. The table is scanned in rowid order
and SQLite's sorter keeps rows with equal keys in scan order. -/
def selectActive (t : Table) : List (String × Nat) :=
  ((t.filter (fun r => r.is_active)).insertionSort
    (fun a b => a.subscription_date ≥ b.subscription_date)).map
    (fun r => (r.email, r.subscription_date))

/-- The call `db.all(query, callback)` (line 109). -/
def dbAll (fault : Option DbError) (t : Table) : Except DbError (List (String × Nat)) :=
  match fault with
  | some err => .error err
  | none => .ok (selectActive t)

/-! ## The route handlers -/

def msgRequired : String := "Email address is required."
def msgInvalid : String := "Please provide a valid email address."
def msgFailed : String := "Subscription failed. Please try again."
def msgAlready : String := "You are already subscribed to our newsletter!"
def msgThanks : String := "Thank you for subscribing to our newsletter!"
def msgTooMany : String := "Too many subscription attempts, please try again later."

/-- How the synchronous part of the subscribe handler (lines 51-73) ends. -/
inductive Checked where
  /-- It answered by itself. -/
  | reply (r : Response)
  /-- It raised an exception. -/
  | threw (e : JsError)
  /-- It called `db.run` with this email. -/
  | run (email : String)
deriving DecidableEq, Repr

/-- Lines 51-73 of the subscribe handler. `validator.isEmail(email)` on line 63 takes
strings only: on a string it answers `syn`, on any other value it throws a
`TypeError`. -/
def subscribeSync (syn : String → Bool) (body : JsValue) : Checked :=
  match body.prop "email" with
  | .error e => .threw e
  | .ok email =>
    if !email.truthy then .reply ⟨400, .result false msgRequired⟩
    else
      match email with
      | .str s =>
        if !syn s then .reply ⟨400, .result false msgInvalid⟩
        else .run s
      | _ => .threw .typeError

/-- The callback of `db.run` (lines 73-95). -/
def subscribeCallback : RunResult → Response
  | .failed _ => ⟨500, .result false msgFailed⟩
  | .done 0 => ⟨200, .result true msgAlready⟩
  | .done _ => ⟨200, .result true msgThanks⟩

/-- How a handler invocation ends. -/
inductive Outcome where
  | responded (r : Response)
  | threw (e : JsError)
deriving DecidableEq, Repr

/-- The handler of `POST /api/newsletter/subscribe` (lines 50-96) run to completion on
the table `t`: the outcome and the table afterwards. -/
def subscribe (syn : String → Bool) (body : JsValue) (fault : Option DbError) (now : Nat)
    (t : Table) : Outcome × Table :=
  match subscribeSync syn body with
  | .reply r => (.responded r, t)
  | .threw e => (.threw e, t)
  | .run email => (.responded (subscribeCallback (dbRun fault t email now).2),
      (dbRun fault t email now).1)

/-- The handler of `GET /api/admin/subscribers` (lines 108-115). -/
def subscribers (fault : Option DbError) (t : Table) : Response :=
  match dbAll fault t with
  | .error _ => ⟨500, .error "Database error"⟩
  | .ok rows => ⟨200, .rows rows⟩

/-- The handler of `GET /api/health` (lines 99-105). -/
def health (time : Nat) : Response :=
  ⟨200, .health "OK" "Ar-Risalah Academy Newsletter API is running" time⟩

/-- The body `{ email: s }`. -/
def emailBody (s : String) : JsValue := .obj [("email", .str s)]

/-- The responses named in the interface. -/
def created : Response := ⟨200, .result true msgThanks⟩
def alreadyExists : Response := ⟨200, .result true msgAlready⟩
def required : Response := ⟨400, .result false msgRequired⟩
def invalidFormat : Response := ⟨400, .result false msgInvalid⟩
def subscriptionFailed : Response := ⟨500, .result false msgFailed⟩

/-! ## The limiter and the application (lines 16-25, 50, 99, 108) -/

/-- One request seen by the limiter: who sent it and when (milliseconds). -/
structure Hit where
  source : String
  time : Nat
deriving DecidableEq, Repr

/-- Option `windowMs` of the limiter (line 18). -/
def windowMs : Nat := 15 * 60 * 1000

/-- Option `max` of the limiter (line 19). -/
def limiterMax : Nat := 10

/-- Modelled from the spec: the counting done by the package express-rate-limit, which
is configured on lines 17-24 but whose code is not part of the repository. The number
of earlier requests of `source` that still lie inside the sliding window of length
`windowMs` ending at `time`. -/
def liveHits (hits : List Hit) (source : String) (time : Nat) : Nat :=
  (hits.filter (fun h => h.source == source && decide (time < h.time + windowMs))).length

/-- Modelled from the spec: the decision of the limiter, whose code (package
express-rate-limit) is not part of the repository. A request is admitted when fewer
than `limiterMax` earlier requests of the same source lie inside the window. -/
def admits (hits : List Hit) (source : String) (time : Nat) : Bool :=
  decide (liveHits hits source time < limiterMax)

/-- The response of the limiter to a request over the quota (lines 20-23). -/
def tooMany : Response := ⟨429, .result false msgTooMany⟩

/-- The state of the application: the requests the limiter has seen, and the table. -/
structure Server where
  hits : List Hit
  db : Table

/-- What a request carries as its body, as the JSON body parser sees it. -/
inductive Payload where
  /-- Nothing for the parser to read (no body, or a content type other than JSON):
  `req.body` stays what Express made it, `body`. -/
  | unparsed (body : JsValue)
  /-- Content the parser gives up on, answering with `status`: text that `JSON.parse`
  rejects (400), a body over the size limit (413). -/
  | refused (status : Nat)
  /-- JSON text that `JSON.parse` turns into the value `v`. -/
  | json (v : JsValue)

/-- The middleware `express.json()` (line 14), mounted in front of every route and of
the limiter. In its default strict mode it accepts objects and arrays only. It either
hands the request on with `req.body` set, or ends it with an error that Express
answers with its error page. -/
def expressJson : Payload → Except Response JsValue
  | .unparsed body => .ok body
  | .refused status => .error ⟨status, .errorPage⟩
  | .json (.obj fields) => .ok (.obj fields)
  | .json (.arr items) => .ok (.arr items)
  | .json _ => .error ⟨400, .errorPage⟩

/-- A request, with what the environment decides while it is served. -/
inductive Request where
  | subscribe (source : String) (time : Nat) (payload : Payload)
      (fault : Option DbError) (now : Nat)
  | subscribers (payload : Payload) (fault : Option DbError)
  | health (payload : Payload) (time : Nat)

/-- The body a request carries. -/
def Request.payload : Request → Payload
  | .subscribe _ _ payload _ _ => payload
  | .subscribers payload _ => payload
  | .health payload _ => payload

/-- The answer to a request; `handled` tells whether the route handler ran. -/
structure Reply where
  handled : Bool
  response : Response
deriving DecidableEq, Repr

/-- What Express sends for an outcome of a handler: the response itself, or status 500
with its error page when the handler threw. -/
def Outcome.sent : Outcome → Response
  | .responded r => r
  | .threw _ => ⟨500, .errorPage⟩

/-- What happens to a request once the body parser has handed it on with
`req.body = body`. A request under `/api/newsletter` passes the limiter first (line 25)
and is counted by it; the other two routes are not limited. -/
def route (syn : String → Bool) (s : Server) (body : JsValue) : Request → Server × Reply
  | .subscribe source time _ fault now =>
    if admits s.hits source time then
      (⟨s.hits ++ [⟨source, time⟩], (subscribe syn body fault now s.db).2⟩,
        ⟨true, (subscribe syn body fault now s.db).1.sent⟩)
    else
      (⟨s.hits ++ [⟨source, time⟩], s.db⟩, ⟨false, tooMany⟩)
  | .subscribers _ fault => (s, ⟨true, subscribers fault s.db⟩)
  | .health _ time => (s, ⟨true, health time⟩)

/-- Serving one request: the middleware in the order of lines 12-25. The body parser
comes first; a request it refuses is answered there, and neither the limiter nor a
handler sees it. (`helmet()` and `cors()` only add headers.) -/
def serve (syn : String → Bool) (s : Server) (r : Request) : Server × Reply :=
  match expressJson r.payload with
  | .error refusal => (s, ⟨false, refusal⟩)
  | .ok body => route syn s body r

/-- Serving a sequence of requests one after the other. -/
def serveAll (syn : String → Bool) : Server → List Request → Server × List Reply
  | s, [] => (s, [])
  | s, r :: rs =>
    ((serveAll syn (serve syn s r).1 rs).1, (serve syn s r).2 :: (serveAll syn (serve syn s r).1 rs).2)

/-- The first `n` of a series of subscribe requests that all come from `source`;
request number `i` arrives at `time i` carrying `payload i`, and its statement, if it
runs, meets `fault i` and the timestamp `now i`. -/
def burst (source : String) (time : Nat → Nat) (payload : Nat → Payload)
    (fault : Nat → Option DbError) (now : Nat → Nat) (n : Nat) : List Request :=
  (List.range n).map (fun i => .subscribe source (time i) (payload i) (fault i) (now i))

/-! ## Two subscribe requests in flight at once

Node runs the synchronous part of a handler and each callback without interruption,
and SQLite executes one statement at a time. A request in flight therefore advances in
three steps: the synchronous part of the handler (lines 51-73), the execution of its
`INSERT OR IGNORE` statement, and the callback (lines 74-95). -/

/-- Where a subscribe request in flight stands. -/
inductive Phase where
  /-- Received, handler not yet run. -/
  | arrived (body : JsValue)
  /-- The handler called `db.run`; the statement has not run yet. -/
  | queued (email : String)
  /-- The statement ran; the callback has not run yet. -/
  | executed (result : RunResult)
  /-- The request is over. -/
  | finished (o : Outcome)

/-- One step of a request in flight; `fault` and `now` are used by the step that
executes the statement. A finished request does not move. -/
def Phase.step (syn : String → Bool) (fault : Option DbError) (now : Nat) (t : Table) :
    Phase → Phase × Table
  | .arrived body =>
    match subscribeSync syn body with
    | .reply r => (.finished (.responded r), t)
    | .threw e => (.finished (.threw e), t)
    | .run email => (.queued email, t)
  | .queued email => (.executed (dbRun fault t email now).2, (dbRun fault t email now).1)
  | .executed result => (.finished (.responded (subscribeCallback result)), t)
  | .finished o => (.finished o, t)

/-- Two requests in flight over one table. -/
structure Race where
  first : Phase
  second : Phase
  db : Table

/-- The environment of the two requests: fault and timestamp of each statement. -/
structure RaceEnv where
  fault₁ : Option DbError
  now₁ : Nat
  fault₂ : Option DbError
  now₂ : Nat

/-- One step of the race: `true` moves the first request, `false` the second. -/
def Race.step (syn : String → Bool) (env : RaceEnv) (r : Race) (pick : Bool) : Race :=
  if pick then
    ⟨(r.first.step syn env.fault₁ env.now₁ r.db).1, r.second,
      (r.first.step syn env.fault₁ env.now₁ r.db).2⟩
  else
    ⟨r.first, (r.second.step syn env.fault₂ env.now₂ r.db).1,
      (r.second.step syn env.fault₂ env.now₂ r.db).2⟩

/-- Running a schedule: the list tells which request moves at each step. -/
def Race.run (syn : String → Bool) (env : RaceEnv) (r : Race) (schedule : List Bool) : Race :=
  schedule.foldl (Race.step syn env) r

/-- The outcome of a request that is over. -/
def Phase.outcome : Phase → Option Outcome
  | .finished o => some o
  | _ => none

/-- Both requests are over. -/
def Race.over (r : Race) : Bool :=
  r.first.outcome.isSome && r.second.outcome.isSome

/-- The phase of a request for `body` with email `e` that has taken `n` steps, none
of which executed its statement. -/
def Phase.early (body : JsValue) (e : String) (n : Nat) : Phase :=
  if n = 0 then .arrived body else .queued e

/-- The phase of a request that has taken `n` steps, two or more, and whose statement
changed `changes` rows. -/
def Phase.late (changes : Nat) (n : Nat) : Phase :=
  if n = 2 then .executed (.done changes)
  else .finished (.responded (subscribeCallback (.done changes)))

/-- What the race can look like after the first request took `n₁` steps and the second
`n₂`, when both ask for the email `e` that the table `t` does not hold and the database
reports no error: nobody has inserted yet, or one request inserted (its statement
changed one row) and the other, if it has executed, changed none. -/
def RaceInv (body₁ body₂ : JsValue) (e : String) (now₁ now₂ : Nat) (t : Table)
    (r : Race) (n₁ n₂ : Nat) : Prop :=
  (n₁ ≤ 1 ∧ n₂ ≤ 1 ∧ r = ⟨.early body₁ e n₁, .early body₂ e n₂, t⟩) ∨
  (2 ≤ n₁ ∧ n₂ ≤ 1 ∧ r = ⟨.late 1 n₁, .early body₂ e n₂,
      t ++ [Subscriber.mk (nextId t) e now₁ true]⟩) ∨
  (n₁ ≤ 1 ∧ 2 ≤ n₂ ∧ r = ⟨.early body₁ e n₁, .late 1 n₂,
      t ++ [Subscriber.mk (nextId t) e now₂ true]⟩) ∨
  (2 ≤ n₁ ∧ 2 ≤ n₂ ∧ r = ⟨.late 1 n₁, .late 0 n₂,
      t ++ [Subscriber.mk (nextId t) e now₁ true]⟩) ∨
  (2 ≤ n₁ ∧ 2 ≤ n₂ ∧ r = ⟨.late 0 n₁, .late 1 n₂,
      t ++ [Subscriber.mk (nextId t) e now₂ true]⟩)

/-! ## Facts about the table and the handler -/

theorem any_email_false (t : Table) (e : String) (h : ∀ r ∈ t, r.email ≠ e) :
    t.any (fun r => r.email == e) = false := by
  induction t with
  | nil => rfl
  | cons a t ih =>
    simp only [List.any_cons, Bool.or_eq_false_iff]
    exact ⟨by simpa using h a (List.mem_cons_self _ _),
      ih (fun r hr => h r (List.mem_cons_of_mem _ hr))⟩

theorem any_email_true (t : Table) (e : String) (h : ∃ r ∈ t, r.email = e) :
    t.any (fun r => r.email == e) = true := by
  obtain ⟨r, hr, he⟩ := h
  exact List.any_eq_true.mpr ⟨r, hr, by simp [he]⟩

theorem insertOrIgnore_absent (t : Table) (e : String) (now : Nat)
    (h : ∀ r ∈ t, r.email ≠ e) :
    insertOrIgnore t e now = (t ++ [Subscriber.mk (nextId t) e now true], 1) := by
  simp [insertOrIgnore, any_email_false t e h]

theorem insertOrIgnore_present (t : Table) (e : String) (now : Nat)
    (h : ∃ r ∈ t, r.email = e) :
    insertOrIgnore t e now = (t, 0) := by
  simp only [insertOrIgnore, any_email_true t e h, if_true]

theorem lt_nextId (t : Table) : ∀ r ∈ t, r.id < nextId t := by
  induction t with
  | nil => simp
  | cons a t ih =>
    intro r hr
    have hn : nextId (a :: t) = max a.id ((t.map (fun r => r.id)).foldr max 0) + 1 := rfl
    rcases List.mem_cons.mp hr with h | h
    · subst h
      rw [hn]
      omega
    · have := ih r h
      rw [hn]
      unfold nextId at this
      omega

theorem subscribeSync_valid (syn : String → Bool) (body : JsValue) (e : String)
    (hbody : body.prop "email" = .ok (.str e)) (hne : e ≠ "") (hsyn : syn e = true) :
    subscribeSync syn body = .run e := by
  simp [subscribeSync, hbody, JsValue.truthy, hne, hsyn]

theorem countEmail_absent (t : Table) (e : String) (h : ∀ r ∈ t, r.email ≠ e) :
    (t.filter (fun r => r.email = e)).length = 0 := by
  rw [List.length_eq_zero, List.filter_eq_nil_iff]
  intro r hr
  simpa using h r hr

theorem subscribe_valid (syn : String → Bool) (body : JsValue) (e : String)
    (fault : Option DbError) (now : Nat) (t : Table)
    (hbody : body.prop "email" = .ok (.str e)) (hne : e ≠ "") (hsyn : syn e = true) :
    subscribe syn body fault now t =
      (.responded (subscribeCallback (dbRun fault t e now).2), (dbRun fault t e now).1) := by
  simp [subscribe, subscribeSync_valid syn body e hbody hne hsyn]

theorem subscribe_new (syn : String → Bool) (body : JsValue) (e : String)
    (now : Nat) (t : Table)
    (hbody : body.prop "email" = .ok (.str e)) (hne : e ≠ "") (hsyn : syn e = true)
    (habsent : ∀ r ∈ t, r.email ≠ e) :
    subscribe syn body none now t =
      (.responded created, t ++ [Subscriber.mk (nextId t) e now true]) := by
  rw [subscribe_valid syn body e none now t hbody hne hsyn]
  simp [dbRun, insertOrIgnore_absent t e now habsent, subscribeCallback, created]

theorem subscribe_again (syn : String → Bool) (body : JsValue) (e : String)
    (now : Nat) (t : Table)
    (hbody : body.prop "email" = .ok (.str e)) (hne : e ≠ "") (hsyn : syn e = true)
    (hpresent : ∃ r ∈ t, r.email = e) :
    subscribe syn body none now t = (.responded alreadyExists, t) := by
  rw [subscribe_valid syn body e none now t hbody hne hsyn]
  simp [dbRun, insertOrIgnore_present t e now hpresent, subscribeCallback, alreadyExists]

/-! ## The claims about the subscribe handler -/

/-- C1: for every table, every valid email `e` that no row holds, and a database that
reports no error: the subscribe handler called with `e` answers 200 with the thank-you
message; called again with `e` on the resulting table it answers 200 with the
already-subscribed message; and the table then holds exactly one row whose email is
`e`. -/
theorem subscribe_twice (syn : String → Bool) (body : JsValue) (e : String)
    (now₁ now₂ : Nat) (t : Table)
    (hbody : body.prop "email" = .ok (.str e)) (hne : e ≠ "") (hsyn : syn e = true)
    (habsent : ∀ r ∈ t, r.email ≠ e) :
    (subscribe syn body none now₁ t).1
        = .responded ⟨200, .result true "Thank you for subscribing to our newsletter!"⟩ ∧
    (subscribe syn body none now₂ (subscribe syn body none now₁ t).2).1
        = .responded ⟨200, .result true "You are already subscribed to our newsletter!"⟩ ∧
    ((subscribe syn body none now₂ (subscribe syn body none now₁ t).2).2.filter
        (fun r => r.email = e)).length = 1 := by
  have h1 := subscribe_new syn body e now₁ t hbody hne hsyn habsent
  have h2 := subscribe_again syn body e now₂ (t ++ [Subscriber.mk (nextId t) e now₁ true])
    hbody hne hsyn ⟨_, List.mem_append_right _ (List.mem_singleton_self _), rfl⟩
  rw [h1]
  simp only [h2]
  refine ⟨rfl, rfl, ?_⟩
  rw [List.filter_append, List.length_append, countEmail_absent t e habsent]
  simp

/-- Witness of C1: `a@x.com` on a table that holds only `b@x.com`. -/
theorem subscribe_twice_witness :
    (subscribe (fun _ => true) (emailBody "a@x.com") none 7
        [Subscriber.mk 1 "b@x.com" 3 true]).1
        = .responded ⟨200, .result true "Thank you for subscribing to our newsletter!"⟩ ∧
    (subscribe (fun _ => true) (emailBody "a@x.com") none 9
        (subscribe (fun _ => true) (emailBody "a@x.com") none 7
          [Subscriber.mk 1 "b@x.com" 3 true]).2).1
        = .responded ⟨200, .result true "You are already subscribed to our newsletter!"⟩ ∧
    ((subscribe (fun _ => true) (emailBody "a@x.com") none 9
        (subscribe (fun _ => true) (emailBody "a@x.com") none 7
          [Subscriber.mk 1 "b@x.com" 3 true]).2).2.filter
        (fun r => r.email = "a@x.com")).length = 1 :=
  subscribe_twice (fun _ => true) (emailBody "a@x.com") "a@x.com" 7 9
    [Subscriber.mk 1 "b@x.com" 3 true] rfl (by decide) rfl (by decide)

/-- C2: for every table and every string `s` that fails the syntax check or is empty,
the subscribe handler called with email `s` answers status 400 with success false and
leaves the table as it was; the message is the required-message when `s` is empty and
the invalid-format message otherwise. A body without an email field gets the
required-message as well. -/
theorem subscribe_rejects (syn : String → Bool) (fault : Option DbError) (now : Nat)
    (t : Table) (body : JsValue) (s : String) :
    (body.prop "email" = .ok (.str s) → (syn s = false ∨ s = "") →
      subscribe syn body fault now t =
        (.responded ⟨400, .result false
          (if s = "" then "Email address is required."
            else "Please provide a valid email address.")⟩, t)) ∧
    (body.prop "email" = .ok .undefined →
      subscribe syn body fault now t =
        (.responded ⟨400, .result false "Email address is required."⟩, t)) := by
  constructor
  · intro hbody hs
    by_cases he : s = ""
    · simp [subscribe, subscribeSync, hbody, JsValue.truthy, he, msgRequired]
    · have hsyn : syn s = false := hs.resolve_right he
      simp [subscribe, subscribeSync, hbody, JsValue.truthy, he, hsyn, msgInvalid]
  · intro hbody
    simp [subscribe, subscribeSync, hbody, JsValue.truthy, msgRequired]

/-- Witness of C2: `not-an-email`, the empty string and an empty body, with a syntax
check that asks for an `@`. -/
theorem subscribe_rejects_witness :
    subscribe (fun s => s.toList.contains '@') (emailBody "not-an-email") none 7
        [Subscriber.mk 1 "b@x.com" 3 true]
      = (.responded ⟨400, .result false "Please provide a valid email address."⟩,
          [Subscriber.mk 1 "b@x.com" 3 true]) ∧
    subscribe (fun s => s.toList.contains '@') (emailBody "") none 7
        [Subscriber.mk 1 "b@x.com" 3 true]
      = (.responded ⟨400, .result false "Email address is required."⟩,
          [Subscriber.mk 1 "b@x.com" 3 true]) ∧
    subscribe (fun s => s.toList.contains '@') (.obj []) none 7
        [Subscriber.mk 1 "b@x.com" 3 true]
      = (.responded ⟨400, .result false "Email address is required."⟩,
          [Subscriber.mk 1 "b@x.com" 3 true]) :=
  ⟨(subscribe_rejects (fun s => s.toList.contains '@') none 7 [Subscriber.mk 1 "b@x.com" 3 true]
      (emailBody "not-an-email") "not-an-email").1 rfl (Or.inl (by decide)),
   (subscribe_rejects (fun s => s.toList.contains '@') none 7 [Subscriber.mk 1 "b@x.com" 3 true]
      (emailBody "") "").1 rfl (Or.inr rfl),
   (subscribe_rejects (fun s => s.toList.contains '@') none 7 [Subscriber.mk 1 "b@x.com" 3 true]
      (.obj []) "").2 rfl⟩

/-- C3: for every table and every email `e` submitted to the subscribe handler: when
the handler answers Created, the resulting table is the previous table followed by
exactly one new row, which has a new id, the email `e` exactly as submitted, the
timestamp of the insert and is_active true; when it answers AlreadyExists, the
resulting table is the previous table. -/
theorem subscribe_frame (syn : String → Bool) (fault : Option DbError) (now : Nat)
    (t : Table) (body : JsValue) (e : String)
    (hbody : body.prop "email" = .ok (.str e)) :
    ((subscribe syn body fault now t).1 = .responded created →
      ∃ id, (∀ r ∈ t, r.id < id) ∧
        (subscribe syn body fault now t).2 = t ++ [Subscriber.mk id e now true]) ∧
    ((subscribe syn body fault now t).1 = .responded alreadyExists →
      (subscribe syn body fault now t).2 = t) := by
  by_cases hne : e = ""
  · simp [subscribe, subscribeSync, hbody, JsValue.truthy, hne, created, alreadyExists]
  by_cases hsyn : syn e = true
  swap
  · simp [subscribe, subscribeSync, hbody, JsValue.truthy, hne, hsyn, created, alreadyExists]
  rw [subscribe_valid syn body e fault now t hbody hne hsyn]
  cases fault with
  | some err => simp [dbRun, subscribeCallback, created, alreadyExists, msgFailed]
  | none =>
    by_cases hp : ∃ r ∈ t, r.email = e
    · simp [dbRun, insertOrIgnore_present t e now hp, subscribeCallback, created,
        alreadyExists, msgAlready, msgThanks]
    · have ha : ∀ r ∈ t, r.email ≠ e := fun r hr he => hp ⟨r, hr, he⟩
      refine ⟨fun _ => ⟨nextId t, lt_nextId t, ?_⟩, ?_⟩
      · simp [dbRun, insertOrIgnore_absent t e now ha]
      · simp [dbRun, insertOrIgnore_absent t e now ha, subscribeCallback,
          alreadyExists, msgAlready, msgThanks]

/-- Witness of C3: `A@x.com` is new in a table that holds `a@x.com`, and is stored as
submitted; `a@x.com` is not new and the table stays. -/
theorem subscribe_frame_witness :
    (∃ id, (∀ r ∈ [Subscriber.mk 1 "a@x.com" 3 true], r.id < id) ∧
      (subscribe (fun _ => true) (emailBody "A@x.com") none 7
          [Subscriber.mk 1 "a@x.com" 3 true]).2
        = [Subscriber.mk 1 "a@x.com" 3 true] ++ [Subscriber.mk id "A@x.com" 7 true]) ∧
    (subscribe (fun _ => true) (emailBody "a@x.com") none 7
        [Subscriber.mk 1 "a@x.com" 3 true]).2
      = [Subscriber.mk 1 "a@x.com" 3 true] :=
  ⟨(subscribe_frame (fun _ => true) none 7 [Subscriber.mk 1 "a@x.com" 3 true]
      (emailBody "A@x.com") "A@x.com" rfl).1 (by decide),
   (subscribe_frame (fun _ => true) none 7 [Subscriber.mk 1 "a@x.com" 3 true]
      (emailBody "a@x.com") "a@x.com" rfl).2 (by decide)⟩

/-- C8: for every valid email and every error the insert reports, the subscribe handler
answers status 500 with the body of success false and the subscription-failed message;
two different errors get the same answer, and the answer is never a status 200. -/
theorem subscribe_storage_error (syn : String → Bool) (err err' : DbError) (now : Nat)
    (t : Table) (body : JsValue) (e : String)
    (hbody : body.prop "email" = .ok (.str e)) (hne : e ≠ "") (hsyn : syn e = true) :
    (subscribe syn body (some err) now t).1
      = .responded ⟨500, .result false "Subscription failed. Please try again."⟩ ∧
    (subscribe syn body (some err) now t).1 = (subscribe syn body (some err') now t).1 ∧
    ∀ r, (subscribe syn body (some err) now t).1 = .responded r → r.status ≠ 200 := by
  rw [subscribe_valid syn body e (some err) now t hbody hne hsyn,
    subscribe_valid syn body e (some err') now t hbody hne hsyn]
  refine ⟨rfl, rfl, ?_⟩
  intro r hr
  simp only [dbRun, subscribeCallback, Outcome.responded.injEq] at hr
  rw [← hr]
  decide

/-- Witness of C8: a disk error and a busy database while `a@x.com` is inserted. -/
theorem subscribe_storage_error_witness :
    (subscribe (fun _ => true) (emailBody "a@x.com") (some ⟨10, "disk I/O error"⟩) 7 []).1
      = .responded ⟨500, .result false "Subscription failed. Please try again."⟩ ∧
    (subscribe (fun _ => true) (emailBody "a@x.com") (some ⟨10, "disk I/O error"⟩) 7 []).1
      = (subscribe (fun _ => true) (emailBody "a@x.com")
          (some ⟨5, "database is locked"⟩) 7 []).1 ∧
    ∀ r, (subscribe (fun _ => true) (emailBody "a@x.com")
        (some ⟨10, "disk I/O error"⟩) 7 []).1 = .responded r → r.status ≠ 200 :=
  subscribe_storage_error (fun _ => true) ⟨10, "disk I/O error"⟩ ⟨5, "database is locked"⟩ 7 []
    (emailBody "a@x.com") "a@x.com" rfl (by decide) rfl

/-- C10, evaluated at the body with email 123: the value is truthy, so line 56 lets
it pass, line 63 hands it to `validator.isEmail`, which takes strings only, and the
handler ends with a `TypeError` instead of a response; the table is untouched. The same
happens for `true`, an array and an object. -/
theorem subscribe_throws_on_number (syn : String → Bool) (fault : Option DbError)
    (now : Nat) (t : Table) :
    subscribe syn (.obj [("email", .num 123)]) fault now t = (.threw .typeError, t) ∧
    subscribe syn (.obj [("email", .bool true)]) fault now t = (.threw .typeError, t) ∧
    subscribe syn (.obj [("email", .arr [])]) fault now t = (.threw .typeError, t) ∧
    subscribe syn (.obj [("email", .obj [])]) fault now t = (.threw .typeError, t) :=
  ⟨rfl, rfl, rfl, rfl⟩

/-- When the email field is a string or a falsy value, the handler does answer, with
one of the five responses of the interface. -/
theorem subscribe_responds_on_strings (syn : String → Bool) (fault : Option DbError)
    (now : Nat) (t : Table) (body email : JsValue)
    (hbody : body.prop "email" = .ok email)
    (hemail : email.truthy = false ∨ ∃ s, email = .str s) :
    ∃ r, (subscribe syn body fault now t).1 = .responded r ∧
      r ∈ [created, alreadyExists, required, invalidFormat, subscriptionFailed] := by
  by_cases htruthy : email.truthy = false
  · exact ⟨required, by simp [subscribe, subscribeSync, hbody, htruthy, required], by simp⟩
  · obtain ⟨s, rfl⟩ := hemail.resolve_left htruthy
    have hne : s ≠ "" := by simpa [JsValue.truthy] using htruthy
    by_cases hsyn : syn s = true
    · rw [subscribe_valid syn body s fault now t hbody hne hsyn]
      cases fault with
      | some err => exact ⟨subscriptionFailed, rfl, by simp⟩
      | none =>
        by_cases hp : ∃ r ∈ t, r.email = s
        · exact ⟨alreadyExists,
            by simp [dbRun, insertOrIgnore_present t s now hp, subscribeCallback,
              alreadyExists], by simp⟩
        · have ha : ∀ r ∈ t, r.email ≠ s := fun r hr he => hp ⟨r, hr, he⟩
          exact ⟨created,
            by simp [dbRun, insertOrIgnore_absent t s now ha, subscribeCallback, created],
            by simp⟩
    · exact ⟨invalidFormat,
        by simp [subscribe, subscribeSync, hbody, JsValue.truthy, hne, hsyn, invalidFormat],
        by simp⟩

/-! ## The claims about the listing -/

/-- C5: for every table, when the read succeeds the listing answers 200 with the
sequence `selectActive`; that sequence holds exactly one entry (email,
subscription_date) for each row whose is_active is true and nothing else, and its
entries are in non-increasing order of subscription_date. -/
theorem subscribers_lists_active (t : Table) :
    subscribers none t = ⟨200, .rows (selectActive t)⟩ ∧
    (selectActive t).Perm
      ((t.filter (fun r => r.is_active)).map (fun r => (r.email, r.subscription_date))) ∧
    (selectActive t).Pairwise (fun a b => a.2 ≥ b.2) := by
  haveI : IsTotal Subscriber (fun a b => a.subscription_date ≥ b.subscription_date) :=
    ⟨fun a b => Nat.le_total b.subscription_date a.subscription_date⟩
  haveI : IsTrans Subscriber (fun a b => a.subscription_date ≥ b.subscription_date) :=
    ⟨fun _ _ _ hab hbc => Nat.le_trans hbc hab⟩
  refine ⟨rfl, ?_, ?_⟩
  · exact (List.perm_insertionSort _ _).map _
  · unfold selectActive
    rw [List.pairwise_map]
    exact List.sorted_insertionSort _ _

/-- C6, evaluated at two inserts that fall in the same clock second: starting from the
empty table, after `a@x.com` and then `b@x.com` are subscribed with the same
timestamp, the listing returns `a@x.com` before `b@x.com`. -/
theorem listing_same_second (syn : String → Bool) (now : Nat)
    (ha : syn "a@x.com" = true) (hb : syn "b@x.com" = true) :
    subscribers none
        (subscribe syn (emailBody "b@x.com") none now
          (subscribe syn (emailBody "a@x.com") none now []).2).2
      = ⟨200, .rows [("a@x.com", now), ("b@x.com", now)]⟩ := by
  rw [subscribe_new syn (emailBody "a@x.com") "a@x.com" now [] rfl (by decide) ha
    (by simp)]
  rw [subscribe_new syn (emailBody "b@x.com") "b@x.com" now _ rfl (by decide) hb
    (by simp)]
  simp [subscribers, dbAll, selectActive, List.insertionSort, List.orderedInsert]

/-- The same-second listing at a concrete clock value. -/
theorem listing_same_second_witness :
    subscribers none
        (subscribe (fun _ => true) (emailBody "b@x.com") none 1700000000
          (subscribe (fun _ => true) (emailBody "a@x.com") none 1700000000 []).2).2
      = ⟨200, .rows [("a@x.com", 1700000000), ("b@x.com", 1700000000)]⟩ :=
  listing_same_second (fun _ => true) 1700000000 rfl rfl

/-- When the second insert gets a strictly later timestamp than the first, the listing
returns `b@x.com` before `a@x.com`. -/
theorem listing_later_first (syn : String → Bool) (nowA nowB : Nat)
    (ha : syn "a@x.com" = true) (hb : syn "b@x.com" = true) (hlt : nowA < nowB) :
    subscribers none
        (subscribe syn (emailBody "b@x.com") none nowB
          (subscribe syn (emailBody "a@x.com") none nowA []).2).2
      = ⟨200, .rows [("b@x.com", nowB), ("a@x.com", nowA)]⟩ := by
  rw [subscribe_new syn (emailBody "a@x.com") "a@x.com" nowA [] rfl (by decide) ha
    (by simp)]
  rw [subscribe_new syn (emailBody "b@x.com") "b@x.com" nowB _ rfl (by decide) hb
    (by simp)]
  have h1 : ¬ nowB ≤ nowA := Nat.not_le.mpr hlt
  simp [subscribers, dbAll, selectActive, List.insertionSort, List.orderedInsert, h1,
    Nat.le_of_lt hlt]

/-! ## The claims about runs of the application -/

/-- The table after the subscribe handler: the table before, or one fresh row more. -/
theorem subscribe_table (syn : String → Bool) (body : JsValue) (fault : Option DbError)
    (now : Nat) (t : Table) :
    (subscribe syn body fault now t).2 = t ∨
    ∃ e, (∀ r ∈ t, r.email ≠ e) ∧
      (subscribe syn body fault now t).2 = t ++ [Subscriber.mk (nextId t) e now true] := by
  unfold subscribe
  cases hc : subscribeSync syn body with
  | reply r => exact Or.inl rfl
  | threw e => exact Or.inl rfl
  | run e =>
    cases fault with
    | some err => exact Or.inl rfl
    | none =>
      by_cases hp : ∃ r ∈ t, r.email = e
      · left
        simp [dbRun, insertOrIgnore_present t e now hp]
      · right
        have ha : ∀ r ∈ t, r.email ≠ e := fun r hr he => hp ⟨r, hr, he⟩
        exact ⟨e, ha, by simp [dbRun, insertOrIgnore_absent t e now ha]⟩

theorem route_table (syn : String → Bool) (s : Server) (body : JsValue) (r : Request) :
    (route syn s body r).1.db = s.db ∨
    ∃ e now, (∀ x ∈ s.db, x.email ≠ e) ∧
      (route syn s body r).1.db = s.db ++ [Subscriber.mk (nextId s.db) e now true] := by
  cases r with
  | subscribe source time payload fault now =>
    by_cases hadm : admits s.hits source time = true
    · rcases subscribe_table syn body fault now s.db with h | ⟨e, he, h⟩
      · exact Or.inl (by simp only [route, hadm, if_true]; exact h)
      · exact Or.inr ⟨e, now, he, by simp only [route, hadm, if_true]; exact h⟩
    · exact Or.inl (by simp only [route, hadm, if_false]; rfl)
  | subscribers payload fault => exact Or.inl rfl
  | health payload time => exact Or.inl rfl

/-- The table after one request: the table before, or one fresh row more. -/
theorem serve_table (syn : String → Bool) (s : Server) (r : Request) :
    (serve syn s r).1.db = s.db ∨
    ∃ e now, (∀ x ∈ s.db, x.email ≠ e) ∧
      (serve syn s r).1.db = s.db ++ [Subscriber.mk (nextId s.db) e now true] := by
  unfold serve
  cases expressJson r.payload with
  | error refusal => exact Or.inl rfl
  | ok body => exact route_table syn s body r

theorem serve_extends (syn : String → Bool) (s : Server) (r : Request) :
    s.db <+: (serve syn s r).1.db := by
  rcases serve_table syn s r with h | ⟨e, now, _, h⟩
  · rw [h]
  · rw [h]
    exact List.prefix_append _ _

theorem serve_nodup (syn : String → Bool) (s : Server) (r : Request)
    (hemail : (s.db.map (fun x => x.email)).Nodup) (hid : (s.db.map (fun x => x.id)).Nodup) :
    ((serve syn s r).1.db.map (fun x => x.email)).Nodup ∧
    ((serve syn s r).1.db.map (fun x => x.id)).Nodup := by
  rcases serve_table syn s r with h | ⟨e, now, he, h⟩
  · rw [h]
    exact ⟨hemail, hid⟩
  · rw [h]
    simp only [List.map_append, List.map_cons, List.map_nil]
    constructor
    · refine List.Nodup.append hemail (List.nodup_singleton _) ?_
      rw [List.disjoint_singleton]
      intro hmem
      obtain ⟨x, hx, hxe⟩ := List.mem_map.mp hmem
      exact he x hx hxe
    · refine List.Nodup.append hid (List.nodup_singleton _) ?_
      rw [List.disjoint_singleton]
      intro hmem
      obtain ⟨x, hx, hxe⟩ := List.mem_map.mp hmem
      have := lt_nextId s.db x hx
      omega

theorem serveAll_append (syn : String → Bool) (s : Server) (pre post : List Request) :
    serveAll syn s (pre ++ post) =
      ((serveAll syn (serveAll syn s pre).1 post).1,
        (serveAll syn s pre).2 ++ (serveAll syn (serveAll syn s pre).1 post).2) := by
  induction pre generalizing s with
  | nil => rfl
  | cons r rs ih =>
    rw [List.cons_append]
    simp only [serveAll]
    rw [ih]
    rfl

theorem serveAll_singleton (syn : String → Bool) (s : Server) (r : Request) :
    serveAll syn s [r] = ((serve syn s r).1, [(serve syn s r).2]) := rfl

theorem serveAll_extends (syn : String → Bool) (s : Server) (reqs : List Request) :
    s.db <+: (serveAll syn s reqs).1.db := by
  induction reqs generalizing s with
  | nil => exact List.prefix_refl _
  | cons r rs ih => exact (serve_extends syn s r).trans (ih (serve syn s r).1)

theorem serveAll_nodup (syn : String → Bool) (s : Server) (reqs : List Request)
    (hemail : (s.db.map (fun x => x.email)).Nodup) (hid : (s.db.map (fun x => x.id)).Nodup) :
    ((serveAll syn s reqs).1.db.map (fun x => x.email)).Nodup ∧
    ((serveAll syn s reqs).1.db.map (fun x => x.id)).Nodup := by
  induction reqs generalizing s with
  | nil => exact ⟨hemail, hid⟩
  | cons r rs ih =>
    exact ih (serve syn s r).1 (serve_nodup syn s r hemail hid).1
      (serve_nodup syn s r hemail hid).2

/-- C4: starting from the empty table, after every finite sequence of subscribe,
listing and health requests (any bodies, any environment), no two rows share an email
and no two share an id; and the table at every earlier point of the sequence is an
initial segment of the final table, so no request removed or altered a row. -/
theorem table_invariant (syn : String → Bool) (hits : List Hit) (reqs : List Request) :
    ((serveAll syn ⟨hits, []⟩ reqs).1.db.map (fun x => x.email)).Nodup ∧
    ((serveAll syn ⟨hits, []⟩ reqs).1.db.map (fun x => x.id)).Nodup ∧
    ∀ k, (serveAll syn ⟨hits, []⟩ (reqs.take k)).1.db <+: (serveAll syn ⟨hits, []⟩ reqs).1.db := by
  refine ⟨(serveAll_nodup syn ⟨hits, []⟩ reqs List.nodup_nil List.nodup_nil).1,
    (serveAll_nodup syn ⟨hits, []⟩ reqs List.nodup_nil List.nodup_nil).2, ?_⟩
  intro k
  conv => rhs; rw [← List.take_append_drop k reqs, serveAll_append]
  exact serveAll_extends syn _ _

/-! ## The limiter -/

theorem serveAll_getElem? (syn : String → Bool) (reqs : List Request) (s : Server) (i : Nat)
    (h : i < reqs.length) :
    (serveAll syn s reqs).2[i]? =
      some (serve syn (serveAll syn s (reqs.take i)).1 reqs[i]).2 := by
  induction reqs generalizing s i with
  | nil => simp at h
  | cons r rs ih =>
    cases i with
    | zero => simp [serveAll]
    | succ i =>
      simp only [serveAll, List.getElem?_cons_succ, List.take_succ_cons, List.getElem_cons_succ]
      exact ih (serve syn s r).1 i (by simpa using h)

theorem burst_succ (source : String) (time : Nat → Nat) (payload : Nat → Payload)
    (fault : Nat → Option DbError) (now : Nat → Nat) (n : Nat) :
    burst source time payload fault now (n + 1) =
      burst source time payload fault now n ++
        [.subscribe source (time n) (payload n) (fault n) (now n)] := by
  simp [burst, List.range_succ]

theorem burst_take (source : String) (time : Nat → Nat) (payload : Nat → Payload)
    (fault : Nat → Option DbError) (now : Nat → Nat) (n i : Nat) (h : i ≤ n) :
    (burst source time payload fault now n).take i
      = burst source time payload fault now i := by
  simp [burst, ← List.map_take, List.take_range, Nat.min_eq_left h]

theorem serve_parsed (syn : String → Bool) (s : Server) (r : Request) (body : JsValue)
    (hp : expressJson r.payload = .ok body) : serve syn s r = route syn s body r := by
  simp only [serve, hp]

theorem serve_admitted (syn : String → Bool) (s : Server) (source : String)
    (time : Nat) (payload : Payload) (body : JsValue) (fault : Option DbError) (now : Nat)
    (hp : expressJson payload = .ok body) (h : admits s.hits source time = true) :
    serve syn s (.subscribe source time payload fault now) =
      (⟨s.hits ++ [⟨source, time⟩], (subscribe syn body fault now s.db).2⟩,
        ⟨true, (subscribe syn body fault now s.db).1.sent⟩) := by
  rw [serve_parsed syn s (.subscribe source time payload fault now) body hp]
  simp only [route, h, if_true]

theorem serve_rejected (syn : String → Bool) (s : Server) (source : String)
    (time : Nat) (payload : Payload) (body : JsValue) (fault : Option DbError) (now : Nat)
    (hp : expressJson payload = .ok body) (h : admits s.hits source time = false) :
    serve syn s (.subscribe source time payload fault now) =
      (⟨s.hits ++ [⟨source, time⟩], s.db⟩, ⟨false, tooMany⟩) := by
  rw [serve_parsed syn s (.subscribe source time payload fault now) body hp]
  simp only [route, h]
  rfl

theorem serve_subscribe_hits (syn : String → Bool) (s : Server) (source : String)
    (time : Nat) (payload : Payload) (body : JsValue) (fault : Option DbError) (now : Nat)
    (hp : expressJson payload = .ok body) :
    (serve syn s (.subscribe source time payload fault now)).1.hits
      = s.hits ++ [⟨source, time⟩] := by
  by_cases hadm : admits s.hits source time = true
  · rw [serve_admitted syn s source time payload body fault now hp hadm]
  · rw [serve_rejected syn s source time payload body fault now hp
      (by simpa using hadm)]

theorem serveAll_burst_hits (syn : String → Bool) (s : Server) (source : String)
    (time : Nat → Nat) (payload : Nat → Payload) (body : Nat → JsValue)
    (fault : Nat → Option DbError) (now : Nat → Nat) (n : Nat)
    (hparsed : ∀ i, i < n → expressJson (payload i) = .ok (body i)) :
    (serveAll syn s (burst source time payload fault now n)).1.hits
      = s.hits ++ (List.range n).map (fun i => Hit.mk source (time i)) := by
  induction n with
  | zero => simp [burst, serveAll]
  | succ n ih =>
    rw [burst_succ, serveAll_append, serveAll_singleton,
      serve_subscribe_hits syn _ source (time n) (payload n) (body n) (fault n) (now n)
        (hparsed n (Nat.lt_succ_self n)),
      ih (fun i hi => hparsed i (Nat.lt_succ_of_lt hi))]
    simp [List.range_succ]

theorem liveHits_append (a b : List Hit) (source : String) (t : Nat) :
    liveHits (a ++ b) source t = liveHits a source t + liveHits b source t := by
  simp [liveHits, List.filter_append]

theorem liveHits_stale (hits : List Hit) (source : String) (t₀ t : Nat)
    (h : liveHits hits source t₀ = 0) (ht : t₀ ≤ t) : liveHits hits source t = 0 := by
  unfold liveHits at h ⊢
  rw [List.length_eq_zero, List.filter_eq_nil_iff] at h ⊢
  intro x hx hlive
  apply h x hx
  simp only [Bool.and_eq_true, decide_eq_true_eq] at hlive ⊢
  exact ⟨hlive.1, by omega⟩

theorem liveHits_burst (source : String) (time : Nat → Nat) (n t : Nat)
    (h : ∀ i, i < n → t < time i + windowMs) :
    liveHits ((List.range n).map (fun i => Hit.mk source (time i))) source t = n := by
  unfold liveHits
  rw [List.filter_eq_self.mpr]
  · simp
  · intro x hx
    obtain ⟨i, hi, rfl⟩ := List.mem_map.mp hx
    simp [h i (List.mem_range.mp hi)]

theorem burst_reply (syn : String → Bool) (s : Server) (source : String)
    (time : Nat → Nat) (payload : Nat → Payload) (fault : Nat → Option DbError)
    (now : Nat → Nat) (n i : Nat) (hi : i < n) :
    (serveAll syn s (burst source time payload fault now n)).2[i]? =
      some (serve syn (serveAll syn s (burst source time payload fault now i)).1
        (.subscribe source (time i) (payload i) (fault i) (now i))).2 := by
  have hlen : i < (burst source time payload fault now n).length := by
    simpa [burst] using hi
  rw [serveAll_getElem? syn _ s i hlen, burst_take source time payload fault now n i (by omega)]
  simp [burst]

theorem burst_liveHits (syn : String → Bool) (s : Server) (source : String)
    (time : Nat → Nat) (payload : Nat → Payload) (body : Nat → JsValue)
    (fault : Nat → Option DbError) (now : Nat → Nat) (k : Nat) (hk : k ≤ 10)
    (hparsed : ∀ i, i ≤ 10 → expressJson (payload i) = .ok (body i))
    (hmono : ∀ i j, i ≤ j → j ≤ 10 → time i ≤ time j)
    (hwindow : time 10 < time 0 + windowMs)
    (hfresh : liveHits s.hits source (time 0) = 0) :
    liveHits (serveAll syn s (burst source time payload fault now k)).1.hits source (time k)
      = k := by
  rw [serveAll_burst_hits syn s source time payload body fault now k
      (fun i hi => hparsed i (by omega)), liveHits_append,
    liveHits_stale s.hits source (time 0) (time k) hfresh (hmono 0 k (Nat.zero_le k) hk),
    liveHits_burst source time k (time k)]
  · simp
  · intro i hi
    have h1 := hmono k 10 hk (Nat.le_refl 10)
    have h2 := hmono 0 i (Nat.zero_le i) (by omega)
    omega

/-- C7, as the code has it: take 11 subscribe requests of one source whose bodies the
JSON body parser accepts (whatever the handler then makes of them), arriving in order
within one window of 15 minutes in which the source has made no other request. Each of
the first 10 reaches the subscribe handler and gets the answer of the handler on the
table of that moment; the 11th is answered by the limiter with status 429 and the
too-many-attempts body, the handler does not run, and the table is the one left by the
first 10. -/
theorem eleventh_request_rejected (syn : String → Bool) (s : Server) (source : String)
    (time : Nat → Nat) (payload : Nat → Payload) (body : Nat → JsValue)
    (fault : Nat → Option DbError) (now : Nat → Nat)
    (hparsed : ∀ i, i ≤ 10 → expressJson (payload i) = .ok (body i))
    (hmono : ∀ i j, i ≤ j → j ≤ 10 → time i ≤ time j)
    (hwindow : time 10 < time 0 + windowMs)
    (hfresh : liveHits s.hits source (time 0) = 0) :
    (∀ i, i < 10 →
      (serveAll syn s (burst source time payload fault now 11)).2[i]? =
        some ⟨true, (subscribe syn (body i) (fault i) (now i)
          (serveAll syn s (burst source time payload fault now i)).1.db).1.sent⟩) ∧
    (serveAll syn s (burst source time payload fault now 11)).2[10]? =
      some ⟨false, ⟨429, .result false
        "Too many subscription attempts, please try again later."⟩⟩ ∧
    (serveAll syn s (burst source time payload fault now 11)).1.db =
      (serveAll syn s (burst source time payload fault now 10)).1.db := by
  have hlive := fun k hk =>
    burst_liveHits syn s source time payload body fault now k hk hparsed hmono hwindow hfresh
  have hlast : admits (serveAll syn s (burst source time payload fault now 10)).1.hits source
      (time 10) = false := by
    unfold admits
    rw [hlive 10 (Nat.le_refl 10)]
    rfl
  refine ⟨?_, ?_, ?_⟩
  · intro i hi
    have hadm : admits (serveAll syn s (burst source time payload fault now i)).1.hits source
        (time i) = true := by
      unfold admits
      rw [hlive i (by omega)]
      exact decide_eq_true (by unfold limiterMax; omega)
    rw [burst_reply syn s source time payload fault now 11 i (by omega),
      serve_admitted syn _ source (time i) (payload i) (body i) (fault i) (now i)
        (hparsed i (by omega)) hadm]
  · rw [burst_reply syn s source time payload fault now 11 10 (by omega),
      serve_rejected syn _ source (time 10) (payload 10) (body 10) (fault 10) (now 10)
        (hparsed 10 (Nat.le_refl 10)) hlast]
    rfl
  · rw [burst_succ, serveAll_append, serveAll_singleton,
      serve_rejected syn _ source (time 10) (payload 10) (body 10) (fault 10) (now 10)
        (hparsed 10 (Nat.le_refl 10)) hlast]

/-- Witness of C7: eleven requests of 10.0.0.1, one per second, each with a new
address in a JSON object, on a fresh server. -/
theorem eleventh_request_rejected_witness :
    (∀ i, i < 10 →
      (serveAll (fun _ => true) ⟨[], []⟩ (burst "10.0.0.1" (fun i => 1000 * i)
          (fun i => .json (emailBody (String.mk (List.replicate (i + 1) 'a') ++ "@x.com")))
          (fun _ => none) (fun i => i) 11)).2[i]? =
        some ⟨true, (subscribe (fun _ => true)
          (emailBody (String.mk (List.replicate (i + 1) 'a') ++ "@x.com")) none i
          (serveAll (fun _ => true) ⟨[], []⟩ (burst "10.0.0.1" (fun i => 1000 * i)
            (fun i => .json (emailBody (String.mk (List.replicate (i + 1) 'a') ++ "@x.com")))
            (fun _ => none) (fun i => i) i)).1.db).1.sent⟩) ∧
    (serveAll (fun _ => true) ⟨[], []⟩ (burst "10.0.0.1" (fun i => 1000 * i)
        (fun i => .json (emailBody (String.mk (List.replicate (i + 1) 'a') ++ "@x.com")))
        (fun _ => none) (fun i => i) 11)).2[10]? =
      some ⟨false, ⟨429, .result false
        "Too many subscription attempts, please try again later."⟩⟩ ∧
    (serveAll (fun _ => true) ⟨[], []⟩ (burst "10.0.0.1" (fun i => 1000 * i)
        (fun i => .json (emailBody (String.mk (List.replicate (i + 1) 'a') ++ "@x.com")))
        (fun _ => none) (fun i => i) 11)).1.db =
      (serveAll (fun _ => true) ⟨[], []⟩ (burst "10.0.0.1" (fun i => 1000 * i)
        (fun i => .json (emailBody (String.mk (List.replicate (i + 1) 'a') ++ "@x.com")))
        (fun _ => none) (fun i => i) 10)).1.db :=
  eleventh_request_rejected (fun _ => true) ⟨[], []⟩ "10.0.0.1" (fun i => 1000 * i)
    (fun i => .json (emailBody (String.mk (List.replicate (i + 1) 'a') ++ "@x.com")))
    (fun i => emailBody (String.mk (List.replicate (i + 1) 'a') ++ "@x.com"))
    (fun _ => none) (fun i => i)
    (fun _ _ => rfl) (fun i j hij _ => Nat.mul_le_mul_left 1000 hij) (by decide) rfl

/-- C7 as stated fails on the code in two ways. Eleven requests of one source, one per
second, on a fresh server, each with the JSON body `null`: the body parser refuses
every one with status 400, so not even the first reaches the handler, the limiter
counts none and the 11th is not answered by it. And eleven requests with good bodies
from a source that made one request a second earlier: the limiter already answers the
10th of them. -/
theorem eleventh_request_not_limited :
    (serveAll (fun _ => true) ⟨[], []⟩ (burst "10.0.0.1" (fun i => 1000 * i)
        (fun _ => .json .null) (fun _ => none) (fun i => i) 11)).2
      = List.replicate 11 ⟨false, ⟨400, .errorPage⟩⟩ ∧
    (serveAll (fun _ => true) ⟨[], []⟩ (burst "10.0.0.1" (fun i => 1000 * i)
        (fun _ => .json .null) (fun _ => none) (fun i => i) 11)).1.hits = [] ∧
    (serveAll (fun _ => true) ⟨[⟨"10.0.0.1", 0⟩], []⟩
        (burst "10.0.0.1" (fun i => 1000 * (i + 1))
          (fun _ => .json (emailBody "a@x.com")) (fun _ => none) (fun i => i) 11)).2[9]?
      = some ⟨false, ⟨429, .result false
          "Too many subscription attempts, please try again later."⟩⟩ := by
  refine ⟨?_, ?_, ?_⟩
  · decide
  · decide
  · decide

/-! ## Two requests for the same new email in flight -/

theorem step_early (syn : String → Bool) (body : JsValue) (e : String) (now : Nat)
    (t : Table) (n : Nat) (hn : n = 0)
    (hbody : body.prop "email" = .ok (.str e)) (hne : e ≠ "") (hsyn : syn e = true) :
    (Phase.early body e n).step syn none now t = (.early body e (n + 1), t) := by
  subst hn
  simp [Phase.early, Phase.step, subscribeSync_valid syn body e hbody hne hsyn]

theorem step_insert (syn : String → Bool) (body : JsValue) (e : String) (now : Nat)
    (t : Table) (n : Nat) (hn : n = 1) (habsent : ∀ r ∈ t, r.email ≠ e) :
    (Phase.early body e n).step syn none now t =
      (.late 1 (n + 1), t ++ [Subscriber.mk (nextId t) e now true]) := by
  subst hn
  simp [Phase.early, Phase.late, Phase.step, dbRun, insertOrIgnore_absent t e now habsent]

theorem step_ignore (syn : String → Bool) (body : JsValue) (e : String) (now : Nat)
    (t : Table) (n : Nat) (hn : n = 1) (hpresent : ∃ r ∈ t, r.email = e) :
    (Phase.early body e n).step syn none now t = (.late 0 (n + 1), t) := by
  subst hn
  simp [Phase.early, Phase.late, Phase.step, dbRun, insertOrIgnore_present t e now hpresent]

theorem step_late (syn : String → Bool) (changes : Nat) (now : Nat) (t : Table) (n : Nat)
    (hn : 2 ≤ n) :
    (Phase.late changes n).step syn none now t = (.late changes (n + 1), t) := by
  by_cases h2 : n = 2
  · subst h2
    simp [Phase.late, Phase.step]
  · have h3 : n + 1 ≠ 2 := by omega
    simp [Phase.late, Phase.step, h2, h3]

theorem mem_append_new (t : Table) (e : String) (id now : Nat) :
    ∃ r ∈ t ++ [Subscriber.mk id e now true], r.email = e :=
  ⟨_, List.mem_append_right _ (List.mem_singleton_self _), rfl⟩

theorem raceInv_first (syn : String → Bool) (body₁ body₂ : JsValue) (e : String)
    (now₁ now₂ : Nat) (t : Table)
    (h₁ : body₁.prop "email" = .ok (.str e)) (hne : e ≠ "") (hsyn : syn e = true)
    (habsent : ∀ r ∈ t, r.email ≠ e) (r : Race) (n₁ n₂ : Nat)
    (h : RaceInv body₁ body₂ e now₁ now₂ t r n₁ n₂) :
    RaceInv body₁ body₂ e now₁ now₂ t
      (Race.step syn ⟨none, now₁, none, now₂⟩ r true) (n₁ + 1) n₂ := by
  rcases h with ⟨a, b, rfl⟩ | ⟨a, b, rfl⟩ | ⟨a, b, rfl⟩ | ⟨a, b, rfl⟩ | ⟨a, b, rfl⟩
  · by_cases h0 : n₁ = 0
    · simp only [Race.step, if_true, step_early syn body₁ e now₁ t n₁ h0 h₁ hne hsyn]
      exact Or.inl ⟨by omega, b, rfl⟩
    · simp only [Race.step, if_true, step_insert syn body₁ e now₁ t n₁ (by omega) habsent]
      exact Or.inr (Or.inl ⟨by omega, b, rfl⟩)
  · simp only [Race.step, if_true, step_late syn 1 now₁ _ n₁ a]
    exact Or.inr (Or.inl ⟨by omega, b, rfl⟩)
  · by_cases h0 : n₁ = 0
    · simp only [Race.step, if_true, step_early syn body₁ e now₁ _ n₁ h0 h₁ hne hsyn]
      exact Or.inr (Or.inr (Or.inl ⟨by omega, b, rfl⟩))
    · simp only [Race.step, if_true,
        step_ignore syn body₁ e now₁ _ n₁ (by omega) (mem_append_new t e _ now₂)]
      exact Or.inr (Or.inr (Or.inr (Or.inr ⟨by omega, b, rfl⟩)))
  · simp only [Race.step, if_true, step_late syn 1 now₁ _ n₁ a]
    exact Or.inr (Or.inr (Or.inr (Or.inl ⟨by omega, b, rfl⟩)))
  · simp only [Race.step, if_true, step_late syn 0 now₁ _ n₁ a]
    exact Or.inr (Or.inr (Or.inr (Or.inr ⟨by omega, b, rfl⟩)))

theorem raceInv_second (syn : String → Bool) (body₁ body₂ : JsValue) (e : String)
    (now₁ now₂ : Nat) (t : Table)
    (h₂ : body₂.prop "email" = .ok (.str e)) (hne : e ≠ "") (hsyn : syn e = true)
    (habsent : ∀ r ∈ t, r.email ≠ e) (r : Race) (n₁ n₂ : Nat)
    (h : RaceInv body₁ body₂ e now₁ now₂ t r n₁ n₂) :
    RaceInv body₁ body₂ e now₁ now₂ t
      (Race.step syn ⟨none, now₁, none, now₂⟩ r false) n₁ (n₂ + 1) := by
  rcases h with ⟨a, b, rfl⟩ | ⟨a, b, rfl⟩ | ⟨a, b, rfl⟩ | ⟨a, b, rfl⟩ | ⟨a, b, rfl⟩
  · by_cases h0 : n₂ = 0
    · simp only [Race.step, Bool.false_eq_true, if_false,
        step_early syn body₂ e now₂ t n₂ h0 h₂ hne hsyn]
      exact Or.inl ⟨a, by omega, rfl⟩
    · simp only [Race.step, Bool.false_eq_true, if_false,
        step_insert syn body₂ e now₂ t n₂ (by omega) habsent]
      exact Or.inr (Or.inr (Or.inl ⟨a, by omega, rfl⟩))
  · by_cases h0 : n₂ = 0
    · simp only [Race.step, Bool.false_eq_true, if_false,
        step_early syn body₂ e now₂ _ n₂ h0 h₂ hne hsyn]
      exact Or.inr (Or.inl ⟨a, by omega, rfl⟩)
    · simp only [Race.step, Bool.false_eq_true, if_false,
        step_ignore syn body₂ e now₂ _ n₂ (by omega) (mem_append_new t e _ now₁)]
      exact Or.inr (Or.inr (Or.inr (Or.inl ⟨a, by omega, rfl⟩)))
  · simp only [Race.step, Bool.false_eq_true, if_false, step_late syn 1 now₂ _ n₂ b]
    exact Or.inr (Or.inr (Or.inl ⟨a, by omega, rfl⟩))
  · simp only [Race.step, Bool.false_eq_true, if_false, step_late syn 0 now₂ _ n₂ b]
    exact Or.inr (Or.inr (Or.inr (Or.inl ⟨a, by omega, rfl⟩)))
  · simp only [Race.step, Bool.false_eq_true, if_false, step_late syn 1 now₂ _ n₂ b]
    exact Or.inr (Or.inr (Or.inr (Or.inr ⟨a, by omega, rfl⟩)))

theorem raceInv_run (syn : String → Bool) (body₁ body₂ : JsValue) (e : String)
    (now₁ now₂ : Nat) (t : Table)
    (h₁ : body₁.prop "email" = .ok (.str e)) (h₂ : body₂.prop "email" = .ok (.str e))
    (hne : e ≠ "") (hsyn : syn e = true) (habsent : ∀ r ∈ t, r.email ≠ e)
    (schedule : List Bool) (r : Race) (n₁ n₂ : Nat)
    (h : RaceInv body₁ body₂ e now₁ now₂ t r n₁ n₂) :
    RaceInv body₁ body₂ e now₁ now₂ t
      (Race.run syn ⟨none, now₁, none, now₂⟩ r schedule)
      (n₁ + schedule.count true) (n₂ + schedule.count false) := by
  induction schedule generalizing r n₁ n₂ with
  | nil => simpa [Race.run] using h
  | cons pick rest ih =>
    cases pick with
    | true =>
      have := ih _ _ _ (raceInv_first syn body₁ body₂ e now₁ now₂ t h₁ hne hsyn habsent r n₁ n₂ h)
      simpa [Race.run, Nat.add_assoc, Nat.add_comm 1] using this
    | false =>
      have := ih _ _ _ (raceInv_second syn body₁ body₂ e now₁ now₂ t h₂ hne hsyn habsent r n₁ n₂ h)
      simpa [Race.run, Nat.add_assoc, Nat.add_comm 1] using this

theorem late_outcome (changes n : Nat) (hn : 3 ≤ n) :
    (Phase.late changes n).outcome
      = some (.responded (subscribeCallback (.done changes))) := by
  have h2 : n ≠ 2 := by omega
  simp [Phase.late, Phase.outcome, h2]

theorem countEmail_append_new (t : Table) (e : String) (id now : Nat)
    (habsent : ∀ r ∈ t, r.email ≠ e) :
    ((t ++ [Subscriber.mk id e now true]).filter (fun r => r.email = e)).length = 1 := by
  rw [List.filter_append, List.length_append, countEmail_absent t e habsent]
  simp

/-- C9: take a table and a valid email `e` that no row holds, a database that reports
no error, and two subscribe requests for `e` in flight at once. Under every schedule
that gives each request its three steps (handler, statement, callback), in whatever
order the steps of the two interleave, both requests end, one of them is answered
Created and the other AlreadyExists, and the table ends with exactly one row whose
email is `e`. -/
theorem race_one_created (syn : String → Bool) (body₁ body₂ : JsValue) (e : String)
    (now₁ now₂ : Nat) (t : Table) (schedule : List Bool)
    (h₁ : body₁.prop "email" = .ok (.str e)) (h₂ : body₂.prop "email" = .ok (.str e))
    (hne : e ≠ "") (hsyn : syn e = true) (habsent : ∀ r ∈ t, r.email ≠ e)
    (hsteps : 3 ≤ schedule.count true ∧ 3 ≤ schedule.count false) :
    (Race.run syn ⟨none, now₁, none, now₂⟩ ⟨.arrived body₁, .arrived body₂, t⟩
        schedule).over = true ∧
    (((Race.run syn ⟨none, now₁, none, now₂⟩ ⟨.arrived body₁, .arrived body₂, t⟩
          schedule).first.outcome = some (.responded created) ∧
      (Race.run syn ⟨none, now₁, none, now₂⟩ ⟨.arrived body₁, .arrived body₂, t⟩
          schedule).second.outcome = some (.responded alreadyExists)) ∨
     ((Race.run syn ⟨none, now₁, none, now₂⟩ ⟨.arrived body₁, .arrived body₂, t⟩
          schedule).first.outcome = some (.responded alreadyExists) ∧
      (Race.run syn ⟨none, now₁, none, now₂⟩ ⟨.arrived body₁, .arrived body₂, t⟩
          schedule).second.outcome = some (.responded created))) ∧
    ((Race.run syn ⟨none, now₁, none, now₂⟩ ⟨.arrived body₁, .arrived body₂, t⟩
        schedule).db.filter (fun r => r.email = e)).length = 1 := by
  have hstart : RaceInv body₁ body₂ e now₁ now₂ t ⟨.arrived body₁, .arrived body₂, t⟩ 0 0 :=
    Or.inl ⟨Nat.zero_le 1, Nat.zero_le 1, rfl⟩
  have hrun := raceInv_run syn body₁ body₂ e now₁ now₂ t h₁ h₂ hne hsyn habsent schedule
    _ 0 0 hstart
  obtain ⟨c₁, c₂⟩ := hsteps
  have hwon : subscribeCallback (.done 1) = created := rfl
  have hlost : subscribeCallback (.done 0) = alreadyExists := rfl
  rcases hrun with ⟨a, _, _⟩ | ⟨_, b, _⟩ | ⟨a, _, _⟩ | ⟨a, b, hr⟩ | ⟨a, b, hr⟩
  · omega
  · omega
  · omega
  · have o₁ := late_outcome 1 _ (show 3 ≤ 0 + schedule.count true by omega)
    have o₂ := late_outcome 0 _ (show 3 ≤ 0 + schedule.count false by omega)
    rw [hwon] at o₁
    rw [hlost] at o₂
    rw [hr]
    exact ⟨by simp only [Race.over, o₁, o₂]; rfl, Or.inl ⟨o₁, o₂⟩,
      countEmail_append_new t e _ now₁ habsent⟩
  · have o₁ := late_outcome 0 _ (show 3 ≤ 0 + schedule.count true by omega)
    have o₂ := late_outcome 1 _ (show 3 ≤ 0 + schedule.count false by omega)
    rw [hlost] at o₁
    rw [hwon] at o₂
    rw [hr]
    exact ⟨by simp only [Race.over, o₁, o₂]; rfl, Or.inr ⟨o₁, o₂⟩,
      countEmail_append_new t e _ now₂ habsent⟩

/-- Witness of C9: two requests for `x@y.com` on the empty table; the second request
runs its handler last but its statement first. -/
theorem race_one_created_witness :
    (Race.run (fun _ => true) ⟨none, 5, none, 5⟩
        ⟨.arrived (emailBody "x@y.com"), .arrived (emailBody "x@y.com"), []⟩
        [true, false, false, true, true, false]).over = true ∧
    (((Race.run (fun _ => true) ⟨none, 5, none, 5⟩
          ⟨.arrived (emailBody "x@y.com"), .arrived (emailBody "x@y.com"), []⟩
          [true, false, false, true, true, false]).first.outcome
          = some (.responded created) ∧
      (Race.run (fun _ => true) ⟨none, 5, none, 5⟩
          ⟨.arrived (emailBody "x@y.com"), .arrived (emailBody "x@y.com"), []⟩
          [true, false, false, true, true, false]).second.outcome
          = some (.responded alreadyExists)) ∨
     ((Race.run (fun _ => true) ⟨none, 5, none, 5⟩
          ⟨.arrived (emailBody "x@y.com"), .arrived (emailBody "x@y.com"), []⟩
          [true, false, false, true, true, false]).first.outcome
          = some (.responded alreadyExists) ∧
      (Race.run (fun _ => true) ⟨none, 5, none, 5⟩
          ⟨.arrived (emailBody "x@y.com"), .arrived (emailBody "x@y.com"), []⟩
          [true, false, false, true, true, false]).second.outcome
          = some (.responded created))) ∧
    ((Race.run (fun _ => true) ⟨none, 5, none, 5⟩
        ⟨.arrived (emailBody "x@y.com"), .arrived (emailBody "x@y.com"), []⟩
        [true, false, false, true, true, false]).db.filter
        (fun r => r.email = "x@y.com")).length = 1 :=
  race_one_created (fun _ => true) (emailBody "x@y.com") (emailBody "x@y.com") "x@y.com"
    5 5 [] [true, false, false, true, true, false] rfl rfl (by decide) rfl (by simp)
    (by decide)

end Newsletter
